import Mathlib

/-!
Shallow embedding of the trivia API backend (`backend/flaskr/__init__.py`).

The store (two relational tables, `Question` and `Category`) is embedded as
lists of records; each HTTP handler becomes a pure function from the store
and the request data to an `Except`-style result, returning the new store
where the handler mutates it.  Python exceptions are modelled by `PyExc`:
`abort(c)` raises an `HTTPException` with status `c`, any other runtime
exception is `PyExc.other`; the uniform `try/except` wrapper of every
handler is `handleExc`.
-/

namespace Trivia

/-- A row of the `Question` table: integer identity `id`, text `question`
and `answer`, integer `difficulty` and `category` (foreign key). -/
structure Question where
  id : Int
  question : String
  answer : String
  category : Int
  difficulty : Int
deriving DecidableEq, Repr

/-- A row of the `Category` table: integer identity `id` and a text label. -/
structure Category where
  id : Int
  type : String
deriving DecidableEq, Repr

/-- The relational store backing the app: the two tables. -/
structure Store where
  questions : List Question
  categories : List Category
deriving DecidableEq, Repr

/-- A Python exception: either a Werkzeug `HTTPException` raised by
`abort(code)`, or any other runtime exception. -/
inductive PyExc where
  | http (code : Nat)
  | other
deriving DecidableEq, Repr

/-- The `try/except` wrapper shared by every handler: an `HTTPException`
is re-raised as-is; any other exception is logged and turned into
`abort(422)`. -/
def handleExc {α : Type} : Except PyExc α → Except Nat α
  | .ok a => .ok a
  | .error (.http c) => .error c
  | .error .other => .error 422

/-- `QUESTIONS_PER_PAGE = 10`. -/
def QUESTIONS_PER_PAGE : Int := 10

/-- Clamp a Python slice endpoint to an index into a list of length `len`:
negative values count from the end, then everything is clamped to
`[0, len]`. -/
def pyBound (len : Nat) (i : Int) : Nat :=
  if i < 0 then (max 0 (i + len)).toNat else min i.toNat len

/-- Python list slicing `l[start:stop]` with implicit step 1. -/
def pySlice {α : Type} (l : List α) (start stop : Int) : List α :=
  (l.take (pyBound l.length stop)).drop (pyBound l.length start)

/-- `paginate_questions`: compute `start = (page-1)*QUESTIONS_PER_PAGE`,
`end = start + QUESTIONS_PER_PAGE` and return the Python slice
`questions[start:end]` of the selection. -/
def paginate_questions (page : Int) (selection : List Question) : List Question :=
  let start := (page - 1) * QUESTIONS_PER_PAGE
  let stop := start + QUESTIONS_PER_PAGE
  pySlice selection start stop

/-- Insert a question into a list sorted by ascending `id` (stably). -/
def insertById (q : Question) : List Question → List Question
  | [] => [q]
  | x :: xs => if q.id ≤ x.id then q :: x :: xs else x :: insertById q xs

/-- `Question.query.order_by(Question.id)`: the table sorted by ascending
id (insertion sort; stable, so a faithful model of SQL `ORDER BY id`). -/
def sortById (l : List Question) : List Question :=
  l.foldr insertById []

/-- Insert a category into a list sorted by ascending `id` (stably). -/
def insertCatById (c : Category) : List Category → List Category
  | [] => [c]
  | x :: xs => if c.id ≤ x.id then c :: x :: xs else x :: insertCatById c xs

/-- `Category.query.order_by(Category.id)`. -/
def sortCatById (l : List Category) : List Category :=
  l.foldr insertCatById []

/-- The category mapping `{str(category.id): category.type for category in s}`
serialised as an association list. -/
def categoriesMap (s : List Category) : List (String × String) :=
  s.map fun c => (toString c.id, c.type)

/-- Response of `GET /categories`. -/
structure CategoriesResp where
  success : Bool
  categories : List (String × String)
deriving DecidableEq, Repr

/-- `GET /categories` (`retrieve_categories`): all categories ordered by id
as an id-to-type mapping; `abort(404)` when the table is empty. -/
def retrieve_categories (store : Store) : Except PyExc CategoriesResp :=
  let selection := sortCatById store.categories
  if selection.length = 0 then .error (.http 404)
  else .ok { success := true, categories := categoriesMap selection }

/-- Response of `GET /questions`. -/
structure QuestionsResp where
  success : Bool
  questions : List Question
  totalQuestions : Nat
  categories : List (String × String)
deriving DecidableEq, Repr

/-- `GET /questions` (`retrieve_questions`): paginate the id-ordered table
with the `page` query parameter; `abort(404)` when the requested page is
empty, otherwise also report the size of the whole table and the full
category mapping. -/
def retrieve_questions (store : Store) (page : Int) : Except PyExc QuestionsResp :=
  let selection := sortById store.questions
  let current_questions := paginate_questions page selection
  if current_questions.length = 0 then .error (.http 404)
  else .ok { success := true
             questions := current_questions
             totalQuestions := store.questions.length
             categories := categoriesMap store.categories }

/-- `Query.one_or_none()` on the rows matched by a filter: `none` when no
row matches, the row when exactly one does, and a (non-HTTP) exception when
several do. -/
def one_or_none {α : Type} : List α → Except PyExc (Option α)
  | [] => .ok none
  | [a] => .ok (some a)
  | _ :: _ :: _ => .error .other

/-- Response of `DELETE /questions/{id}`. -/
structure DeleteResp where
  success : Bool
  deleted : Int
deriving DecidableEq, Repr

/-- `DELETE /questions/<question_id>` (`delete_question`): look the row up
with `one_or_none`, `abort(404)` when absent, otherwise delete it and
answer with the deleted id.  The row deletion itself lives in the absent
`models.py`. Modelled from the spec: "removes it and returns the deleted
id" — the found row is erased from the table. -/
def delete_question (store : Store) (question_id : Int) :
    Except PyExc DeleteResp × Store :=
  match one_or_none (store.questions.filter fun q => q.id == question_id) with
  | .error e => (.error e, store)
  | .ok none => (.error (.http 404), store)
  | .ok (some q) =>
      (.ok { success := true, deleted := question_id },
       { store with questions := store.questions.erase q })

/-- Does `f` accept some suffix of the text? (the continuation of a `%`
wildcard, which may swallow any prefix). -/
def anySuffix (f : List Char → Bool) : List Char → Bool
  | [] => f []
  | c :: ts => f (c :: ts) || anySuffix f ts

/-- SQL `LIKE` pattern matching over characters: `%` matches any sequence,
`_` matches any single character, anything else matches itself. -/
def likeMatch : List Char → List Char → Bool
  | [], t => t.isEmpty
  | p :: ps, t =>
      if p = '%' then anySuffix (likeMatch ps) t
      else
        match t with
        | [] => false
        | c :: ts => if p = '_' then likeMatch ps ts else p == c && likeMatch ps ts

/-- Case-insensitive `ILIKE`: both the pattern and the text are lowered,
then compared with `LIKE`. -/
def ilike (pat text : String) : Bool :=
  likeMatch (pat.data.map Char.toLower) (text.data.map Char.toLower)

/-- Python's `str.lower()`, modelled as per-character lowering. -/
def pyLower (s : String) : String :=
  ⟨s.data.map Char.toLower⟩

/-- The JSON body of `POST /questions`: `body.get(k, None)` for each of the
five recognized keys. -/
structure PostBody where
  question : Option String
  answer : Option String
  difficulty : Option Int
  category : Option Int
  searchTerm : Option String
deriving DecidableEq, Repr

/-- Search response of `POST /questions`. -/
structure SearchResp where
  success : Bool
  questions : List Question
  totalQuestions : Nat
  currentCategory : Option String
deriving DecidableEq, Repr

/-- Result of `POST /questions`: either the search branch's response or the
creation branch's bare `{'success': True}`. -/
inductive PostResp where
  | search (r : SearchResp)
  | created (success : Bool)
deriving DecidableEq, Repr

/-- The next identity value the store assigns on insert.  Modelled from
the spec: `models.py` is not among the sources; the spec's data model gives
`Question` an "integer identity" id, assigned by the store. -/
def nextId (qs : List Question) : Int :=
  (qs.foldr (fun q m => max q.id m) 0) + 1

/-- The creation branch of `POST /questions`: `abort(422)` when any of the
four fields is `None`, otherwise insert the new row (`question.insert()`
lives in the absent `models.py`; modelled from the spec: "creates and
persists the new record", with a store-assigned identity id). -/
def createQuestion (store : Store) (body : PostBody) :
    Except PyExc PostResp × Store :=
  match body.question, body.answer, body.category, body.difficulty with
  | some q, some a, some c, some d =>
      let question : Question :=
        { id := nextId store.questions, question := q, answer := a,
          category := c, difficulty := d }
      (.ok (.created true), { store with questions := store.questions ++ [question] })
  | _, _, _, _ => (.error (.http 422), store)

/-- `POST /questions` (`create_question_or_search`): when `searchTerm` is
truthy (present and non-empty) filter the id-ordered table with
`ilike('%' + searchTerm.lower() + '%')` and answer with the matches, the
size of the whole table and a null current category; otherwise take the
creation branch. -/
def create_question_or_search (store : Store) (body : PostBody) :
    Except PyExc PostResp × Store :=
  match body.searchTerm with
  | some searchTerm =>
      if searchTerm ≠ "" then
        let selection := (sortById store.questions).filter fun q =>
          ilike ("%" ++ pyLower searchTerm ++ "%") q.question
        (.ok (.search { success := true
                        questions := selection
                        totalQuestions := store.questions.length
                        currentCategory := none }), store)
      else createQuestion store body
  | none => createQuestion store body

/-- Response of `GET /categories/{id}/questions`. -/
structure CatQuestionsResp where
  success : Bool
  questions : List Question
  totalQuestions : Nat
  currentCategory : String
deriving DecidableEq, Repr

/-- `GET /categories/<category_id>/questions`
(`retrieve_questions_from_category`): `abort(404)` when the category id is
unknown or no question carries it; otherwise the id-ordered questions of
the category, the size of the whole question table, and the category's
label. -/
def retrieve_questions_from_category (store : Store) (category_id : Int) :
    Except PyExc CatQuestionsResp :=
  match one_or_none (store.categories.filter fun c => c.id == category_id) with
  | .error e => .error e
  | .ok none => .error (.http 404)
  | .ok (some cat) =>
      let selection := (sortById store.questions).filter fun q =>
        q.category == category_id
      if selection.length = 0 then .error (.http 404)
      else .ok { success := true
                 questions := selection
                 totalQuestions := store.questions.length
                 currentCategory := cat.type }

/-- Response of `POST /quizzes`. -/
structure QuizResp where
  success : Bool
  question : Question
deriving DecidableEq, Repr

/-- The candidate rows of `POST /quizzes`: id not among
`previous_questions`, and in the requested category unless its id is 0. -/
def quizSelection (store : Store) (previous_questions : List Int)
    (category_id : Int) : List Question :=
  if category_id = 0 then
    store.questions.filter fun q => decide (q.id ∉ previous_questions)
  else
    store.questions.filter fun q =>
      q.category == category_id && decide (q.id ∉ previous_questions)

/-- `POST /quizzes` (`get_questions_for_quiz`): `abort(404)` when no
candidate remains, otherwise `random.choice` over the candidates —
modelled by an oracle `choice : Nat` reduced modulo the number of
candidates, so that every candidate is picked by some oracle value. -/
def get_questions_for_quiz (store : Store) (previous_questions : List Int)
    (category_id : Int) (choice : Nat) : Except PyExc QuizResp :=
  let selection := quizSelection store previous_questions category_id
  if h : selection.length = 0 then .error (.http 404)
  else .ok { success := true
             question := selection.get
               ⟨choice % selection.length, Nat.mod_lt _ (Nat.pos_of_ne_zero h)⟩ }

/-- An error body `{success, error, message}` together with the HTTP
status code of the response. -/
structure ErrorResp where
  success : Bool
  error : Nat
  message : String
deriving DecidableEq, Repr

/-- The `@app.errorhandler(404)` response. -/
def not_found : ErrorResp × Nat :=
  ({ success := false, error := 404, message := "resource not found" }, 404)

/-- The `@app.errorhandler(422)` response. -/
def unprocessable : ErrorResp × Nat :=
  ({ success := false, error := 422, message := "unprocessable" }, 422)

/-- Dispatch an error status to the registered error handler (the app
registers handlers for 404 and 422; those are the only statuses its
handlers abort with). -/
def errorResponse (code : Nat) : ErrorResp × Nat :=
  if code = 404 then not_found else unprocessable

/-- A concrete store with one question and one category. -/
def sampleStore1 : Store :=
  { questions := [{ id := 1, question := "What is red", answer := "red",
                    category := 1, difficulty := 1 }]
    categories := [{ id := 1, type := "Science" }] }

/-- A concrete store with twelve questions in one category. -/
def sampleStore12 : Store :=
  { questions := (List.range 12).map fun i =>
      { id := (i : Int) + 1, question := toString i, answer := toString i,
        category := 1, difficulty := 1 }
    categories := [{ id := 1, type := "Science" }] }

/-- The spec's "contains the searchTerm as a case-insensitive substring":
the lowered needle is a contiguous substring of the lowered text. -/
def ciSubstring (needle hay : String) : Prop :=
  needle.data.map Char.toLower <:+: hay.data.map Char.toLower

instance (needle hay : String) : Decidable (ciSubstring needle hay) :=
  List.decidableInfix _ _

/-- A complete creation body (all four fields, no search term). -/
def bodyFull : PostBody :=
  { question := some "What is blue", answer := some "blue",
    difficulty := some 3, category := some 2, searchTerm := none }

/-- A body whose `searchTerm` is present but the empty string. -/
def bodyEmptySearch : PostBody :=
  { question := none, answer := none, difficulty := none, category := none,
    searchTerm := some "" }

/-- A body searching for `"a"`. -/
def bodySearchA : PostBody :=
  { question := none, answer := none, difficulty := none, category := none,
    searchTerm := some "a" }

/-- A body searching for the bare wildcard `"%"`. -/
def bodyPct : PostBody :=
  { question := none, answer := none, difficulty := none, category := none,
    searchTerm := some "%" }

/-- A body searching for `"alpha"`. -/
def bodyAlpha : PostBody :=
  { question := none, answer := none, difficulty := none, category := none,
    searchTerm := some "alpha" }

/-- A question mentioning "alpha". -/
def qAlpha : Question :=
  { id := 1, question := "the alpha particle", answer := "a", category := 1,
    difficulty := 1 }

/-- A question mentioning "beta". -/
def qBeta : Question :=
  { id := 2, question := "the beta particle", answer := "b", category := 1,
    difficulty := 1 }

/-- A concrete store with the two particle questions. -/
def sampleStore2 : Store :=
  { questions := [qAlpha, qBeta], categories := [{ id := 1, type := "Science" }] }

/-! ## Supporting lemmas -/

theorem char_eq_of_toNat_eq {a b : Char} (h : a.toNat = b.toNat) : a = b :=
  Char.eq_of_val_eq (UInt32.eq_of_toBitVec_eq (BitVec.eq_of_toNat_eq h))

theorem toNat_ofNat_valid (n : Nat) (h : n.isValidChar) :
    (Char.ofNat n).toNat = n := by
  unfold Char.ofNat
  rw [dif_pos h]
  rfl

theorem char_toLower_toNat (c : Char) :
    (Char.toLower c).toNat =
      if 65 ≤ c.toNat ∧ c.toNat ≤ 90 then c.toNat + 32 else c.toNat := by
  unfold Char.toLower
  by_cases h : c.toNat ≥ 65 ∧ c.toNat ≤ 90
  · rw [if_pos h, if_pos h]
    exact toNat_ofNat_valid _ (Or.inl (by omega))
  · rw [if_neg h, if_neg h]

theorem char_toLower_toLower (c : Char) : c.toLower.toLower = c.toLower := by
  apply char_eq_of_toNat_eq
  rw [char_toLower_toNat c.toLower, char_toLower_toNat c]
  split_ifs <;> omega

/-- `toLower` reaches a character outside `a`-`z` only from itself. -/
theorem char_toLower_eq_special {c d : Char}
    (hd : ¬ (97 ≤ d.toNat ∧ d.toNat ≤ 122)) (h : c.toLower = d) : c = d := by
  apply char_eq_of_toNat_eq
  have h2 := congrArg Char.toNat h
  rw [char_toLower_toNat] at h2
  split_ifs at h2 with hr
  · omega
  · exact h2

theorem map_toLower_idem (l : List Char) :
    (l.map Char.toLower).map Char.toLower = l.map Char.toLower := by
  rw [List.map_map]
  exact List.map_congr_left fun a _ => char_toLower_toLower a

theorem anySuffix_eq_true (f : List Char → Bool) :
    ∀ t : List Char, (anySuffix f t = true ↔ ∃ t', t' <:+ t ∧ f t' = true)
  | [] => by
      simp only [anySuffix]
      constructor
      · intro h; exact ⟨[], List.suffix_rfl, h⟩
      · rintro ⟨t', ht', h⟩
        rwa [List.suffix_nil.mp ht'] at h
  | d :: ts => by
      simp only [anySuffix, Bool.or_eq_true]
      constructor
      · rintro (h | h)
        · exact ⟨d :: ts, List.suffix_rfl, h⟩
        · rcases (anySuffix_eq_true f ts).mp h with ⟨t', ht', hm⟩
          exact ⟨t', ht'.trans (List.suffix_cons d ts), hm⟩
      · rintro ⟨t', ht', hm⟩
        rcases List.suffix_cons_iff.mp ht' with rfl | ht''
        · exact Or.inl hm
        · exact Or.inr ((anySuffix_eq_true f ts).mpr ⟨t', ht'', hm⟩)

theorem likeMatch_pct (t : List Char) : likeMatch ['%'] t = true := by
  induction t with
  | nil => rfl
  | cons c ts ih =>
      show (likeMatch [] (c :: ts) || anySuffix (likeMatch []) ts) = true
      rw [show anySuffix (likeMatch []) ts = likeMatch ['%'] ts from rfl, ih,
        Bool.or_true]

theorem likeMatch_append_pct {p : List Char}
    (hw : ∀ c ∈ p, c ≠ '%' ∧ c ≠ '_') :
    ∀ t : List Char, (likeMatch (p ++ ['%']) t = true ↔ p <+: t) := by
  induction p with
  | nil => intro t; simpa using likeMatch_pct t
  | cons c ps ih =>
      intro t
      have hc := hw c (by simp)
      cases t with
      | nil =>
          simp only [List.cons_append, likeMatch, if_neg hc.1]
          simp
      | cons d ts =>
          simp only [List.cons_append, likeMatch, if_neg hc.1, if_neg hc.2]
          rw [Bool.and_eq_true, beq_iff_eq, List.cons_prefix_cons]
          exact and_congr_right fun _ =>
            ih (fun x hx => hw x (List.mem_cons_of_mem c hx)) ts

theorem likeMatch_pct_cons (ps t : List Char) :
    likeMatch ('%' :: ps) t = true ↔ ∃ t', t' <:+ t ∧ likeMatch ps t' = true := by
  rw [show likeMatch ('%' :: ps) t = anySuffix (likeMatch ps) t from by
    simp [likeMatch]]
  exact anySuffix_eq_true (likeMatch ps) t

/-- For a wildcard-free core `p`, the pattern `%p%` matches exactly the
texts containing `p` as a contiguous substring. -/
theorem likeMatch_substring {p : List Char}
    (hw : ∀ c ∈ p, c ≠ '%' ∧ c ≠ '_') (t : List Char) :
    likeMatch ('%' :: (p ++ ['%'])) t = true ↔ p <:+: t := by
  rw [likeMatch_pct_cons, List.infix_iff_prefix_suffix]
  constructor
  · rintro ⟨t', hsuf, hm⟩
    exact ⟨t', (likeMatch_append_pct hw t').mp hm, hsuf⟩
  · rintro ⟨t', hpre, hsuf⟩
    exact ⟨t', hsuf, (likeMatch_append_pct hw t').mpr hpre⟩

/-- The search filter of the code — `ilike` with the pattern
`'%' + searchTerm.lower() + '%'` — agrees with "contains the search term
as a case-insensitive substring" whenever the term has no `LIKE`
wildcard. -/
theorem ilike_search_iff (s t : String)
    (hw : ∀ c ∈ s.data, c ≠ '%' ∧ c ≠ '_') :
    (ilike ("%" ++ pyLower s ++ "%") t = true ↔ ciSubstring s t) := by
  unfold ilike ciSubstring pyLower
  have hdata : ("%" ++ (⟨s.data.map Char.toLower⟩ : String) ++ "%").data
      = '%' :: s.data.map Char.toLower ++ ['%'] := by
    simp [String.data_append]
  rw [hdata]
  simp only [List.map_append, List.map_cons, List.map_nil]
  rw [show Char.toLower '%' = '%' from by decide, map_toLower_idem]
  apply likeMatch_substring
  intro c hc
  rcases List.mem_map.mp hc with ⟨a, ha, rfl⟩
  have hwc := hw a ha
  exact ⟨fun h => hwc.1 (char_toLower_eq_special (by decide) h),
         fun h => hwc.2 (char_toLower_eq_special (by decide) h)⟩

theorem insertById_perm (q : Question) (l : List Question) :
    List.Perm (insertById q l) (q :: l) := by
  induction l with
  | nil => simp [insertById]
  | cons x xs ih =>
      by_cases h : q.id ≤ x.id
      · simp [insertById, h]
      · simp only [insertById, if_neg h]
        exact ((ih.cons x).trans (List.Perm.swap q x xs))

theorem sortById_perm (l : List Question) : List.Perm (sortById l) l := by
  induction l with
  | nil => simp [sortById]
  | cons x xs ih =>
      exact (insertById_perm x (sortById xs)).trans (ih.cons x)

theorem length_sortById (l : List Question) :
    (sortById l).length = l.length :=
  (sortById_perm l).length_eq

theorem mem_sortById {q : Question} {l : List Question} :
    q ∈ sortById l ↔ q ∈ l :=
  (sortById_perm l).mem_iff

theorem insertById_pairwise (q : Question) (l : List Question)
    (h : l.Pairwise fun a b => a.id ≤ b.id) :
    (insertById q l).Pairwise fun a b => a.id ≤ b.id := by
  induction l with
  | nil => simp [insertById]
  | cons x xs ih =>
      rcases List.pairwise_cons.mp h with ⟨hx, hxs⟩
      by_cases hle : q.id ≤ x.id
      · simp only [insertById, if_pos hle]
        refine List.pairwise_cons.mpr ⟨?_, h⟩
        intro b hb
        rcases List.mem_cons.mp hb with rfl | hb
        · exact hle
        · exact le_trans hle (hx b hb)
      · simp only [insertById, if_neg hle]
        refine List.pairwise_cons.mpr ⟨?_, ih hxs⟩
        intro b hb
        rcases List.mem_cons.mp ((insertById_perm q xs).mem_iff.mp hb) with rfl | hb
        · omega
        · exact hx b hb

theorem sortById_sorted (l : List Question) :
    (sortById l).Pairwise fun a b => a.id ≤ b.id := by
  induction l with
  | nil => simp [sortById]
  | cons x xs ih => exact insertById_pairwise x (sortById xs) ih

theorem pySlice_nonneg {α : Type} (l : List α) (s : Int) (hs : 0 ≤ s) :
    pySlice l s (s + QUESTIONS_PER_PAGE) = (l.drop s.toNat).take 10 := by
  unfold pySlice pyBound QUESTIONS_PER_PAGE
  rw [if_neg (by omega), if_neg (by omega)]
  have h10 : (s + 10).toNat = s.toNat + 10 := by omega
  rw [h10]
  by_cases hlen : s.toNat ≤ l.length
  · rw [min_eq_left hlen]
    have hBA : s.toNat ≤ min (s.toNat + 10) l.length := by omega
    have := List.take_drop (m := s.toNat)
      (n := min (s.toNat + 10) l.length - s.toNat) (l := l)
    rw [show s.toNat + (min (s.toNat + 10) l.length - s.toNat)
          = min (s.toNat + 10) l.length by omega] at this
    rw [← this]
    rw [List.take_eq_take]
    simp only [List.length_drop]
    omega
  · rw [min_eq_right (by omega)]
    rw [List.drop_eq_nil_of_le, List.drop_eq_nil_of_le (by omega), List.take_nil]
    simp only [List.length_take]
    omega

/-- `retrieve_questions` as a single `if`, with the page slice in
drop/take form (for a page `N ≥ 1`). -/
theorem retrieve_questions_eq (store : Store) (N : Int) (hN : 1 ≤ N) :
    retrieve_questions store N =
      if (((sortById store.questions).drop (((N - 1) * 10).toNat)).take 10).length = 0
      then .error (.http 404)
      else .ok { success := true
                 questions := ((sortById store.questions).drop (((N - 1) * 10).toNat)).take 10
                 totalQuestions := store.questions.length
                 categories := categoriesMap store.categories } := by
  have hslice : paginate_questions N (sortById store.questions)
      = ((sortById store.questions).drop (((N - 1) * 10).toNat)).take 10 := by
    unfold paginate_questions
    exact pySlice_nonneg (sortById store.questions) ((N - 1) * QUESTIONS_PER_PAGE)
      (by unfold QUESTIONS_PER_PAGE; omega)
  simp only [retrieve_questions, hslice]

/-! ## The claims -/

/-- C1: for every `GET /questions` request with page parameter `N ≥ 1`, the
endpoint returns the N-th 1-indexed slice of size 10 of all questions
ordered by id, together with the total count of all questions and the full
category mapping; it fails with 404 exactly when that slice is empty — in
particular page 2 returns 404 whenever fewer than 11 questions exist. -/
theorem C1_get_questions_pagination (store : Store) (N : Int) (hN : 1 ≤ N) :
    (retrieve_questions store N = .error (.http 404) ↔
        ((sortById store.questions).drop (((N - 1) * 10).toNat)).take 10 = [])
  ∧ (∀ r, retrieve_questions store N = .ok r →
        r.questions = ((sortById store.questions).drop (((N - 1) * 10).toNat)).take 10
        ∧ r.totalQuestions = store.questions.length
        ∧ r.categories = categoriesMap store.categories
        ∧ r.success = true)
  ∧ (N = 2 → store.questions.length < 11 →
        retrieve_questions store N = .error (.http 404)) := by
  have heq := retrieve_questions_eq store N hN
  refine ⟨?_, ?_, ?_⟩
  · rw [heq]
    by_cases h : ((sortById store.questions).drop (((N - 1) * 10).toNat)).take 10 = []
    · simp [h]
    · have hlen0 : ¬ ((((sortById store.questions).drop
          (((N - 1) * 10).toNat)).take 10).length = 0) :=
        fun hc => h (List.length_eq_zero.mp hc)
      rw [if_neg hlen0]
      exact ⟨fun hco => absurd hco (by simp), fun hco => absurd hco h⟩
  · intro r hr
    rw [heq] at hr
    by_cases h : (((sortById store.questions).drop (((N - 1) * 10).toNat)).take 10).length = 0
    · rw [if_pos h] at hr
      exact absurd hr (by simp)
    · rw [if_neg h] at hr
      injection hr with h2
      subst h2
      exact ⟨rfl, rfl, rfl, rfl⟩
  · intro hN2 hlen
    subst hN2
    rw [heq]
    have h10 : (((2:Int) - 1) * 10).toNat = 10 := by decide
    rw [h10, List.drop_eq_nil_of_le (by rw [length_sortById]; omega), List.take_nil]
    simp

/-- Witness for C1: on the one-question store, page 1 succeeds with that
question, and page 2 returns 404. -/
theorem C1_get_questions_pagination_witness :
    (1 ≤ (2:Int)) ∧
    ((retrieve_questions sampleStore1 2 = .error (.http 404) ↔
        ((sortById sampleStore1.questions).drop ((((2:Int) - 1) * 10).toNat)).take 10 = [])
    ∧ (∀ r, retrieve_questions sampleStore1 2 = .ok r →
        r.questions = ((sortById sampleStore1.questions).drop ((((2:Int) - 1) * 10).toNat)).take 10
        ∧ r.totalQuestions = sampleStore1.questions.length
        ∧ r.categories = categoriesMap sampleStore1.categories
        ∧ r.success = true)
    ∧ ((2:Int) = 2 → sampleStore1.questions.length < 11 →
        retrieve_questions sampleStore1 2 = .error (.http 404))) :=
  ⟨by norm_num, C1_get_questions_pagination sampleStore1 2 (by norm_num)⟩

/-- C10: with page 0 the slice `[-10:0]` is always empty, so `GET
/questions?page=0` returns 404 on every store; with page `-1` and at least
11 questions the Python slice `[-20:-10]` of the id-ordered list is
non-empty, so the endpoint answers it instead of failing. -/
theorem C10_nonpositive_pages (store : Store) :
    retrieve_questions store 0 = .error (.http 404)
  ∧ (11 ≤ store.questions.length →
      retrieve_questions store (-1)
        = .ok { success := true
                questions := pySlice (sortById store.questions) (-20) (-10)
                totalQuestions := store.questions.length
                categories := categoriesMap store.categories }
      ∧ pySlice (sortById store.questions) (-20) (-10) ≠ []) := by
  constructor
  · have h : paginate_questions 0 (sortById store.questions) = [] := by
      unfold paginate_questions pySlice pyBound QUESTIONS_PER_PAGE
      norm_num
    simp [retrieve_questions, h]
  · intro hlen
    have hlen' : 11 ≤ (sortById store.questions).length := by
      rw [length_sortById]; exact hlen
    have hpag : paginate_questions (-1) (sortById store.questions)
        = pySlice (sortById store.questions) (-20) (-10) := by
      unfold paginate_questions QUESTIONS_PER_PAGE
      norm_num
    have hne : (pySlice (sortById store.questions) (-20) (-10)).length ≠ 0 := by
      unfold pySlice pyBound
      rw [if_pos (by omega), if_pos (by omega)]
      simp only [List.length_drop, List.length_take]
      omega
    refine ⟨?_, ?_⟩
    · simp only [retrieve_questions, hpag]
      rw [if_neg hne]
    · intro hnil
      exact hne (by rw [hnil]; rfl)

/-- Witness for C10: the twelve-question store has at least 11 questions,
and page `-1` indeed answers with the (non-empty) `[-20:-10]` slice. -/
theorem C10_nonpositive_pages_witness :
    (11 ≤ sampleStore12.questions.length) ∧
    (retrieve_questions sampleStore12 (-1)
        = .ok { success := true
                questions := pySlice (sortById sampleStore12.questions) (-20) (-10)
                totalQuestions := sampleStore12.questions.length
                categories := categoriesMap sampleStore12.categories }
      ∧ pySlice (sortById sampleStore12.questions) (-20) (-10) ≠ []) :=
  ⟨by decide, (C10_nonpositive_pages sampleStore12).2 (by decide)⟩

/-- Filtering a list by one key value of an injective key extracts exactly
the (unique) member carrying it. -/
theorem filter_key_eq_single {α β : Type} [DecidableEq β] {f : α → β}
    {l : List α} {q : α} (hnd : (l.map f).Nodup) (hq : q ∈ l) :
    l.filter (fun x => f x == f q) = [q] := by
  induction l with
  | nil => cases hq
  | cons x xs ih =>
      rw [List.map_cons, List.nodup_cons] at hnd
      rcases List.mem_cons.mp hq with rfl | hq'
      · rw [List.filter_cons_of_pos (by simp)]
        have hnil : xs.filter (fun x => f x == f q) = [] := by
          apply List.filter_eq_nil_iff.mpr
          intro a ha hpa
          exact hnd.1 (List.mem_map.mpr ⟨a, ha, (by simpa using hpa)⟩)
        rw [hnil]
      · have hne : ¬ ((f x == f q) = true) := by
          simp only [beq_iff_eq]
          intro hxe
          exact hnd.1 (hxe ▸ List.mem_map.mpr ⟨q, hq', rfl⟩)
        rw [List.filter_cons_of_neg (by simpa using hne)]
        exact ih hnd.2 hq'

/-- C3: `DELETE /questions/{id}` on a missing id returns 404 and leaves the
store unchanged; on a present id it removes exactly that question (all
others stay), and answers with success and the deleted id. -/
theorem C3_delete_question (store : Store) (qid : Int)
    (hnd : (store.questions.map Question.id).Nodup) :
    ((∀ q ∈ store.questions, q.id ≠ qid) →
        delete_question store qid = (.error (.http 404), store))
  ∧ (∀ q ∈ store.questions, q.id = qid →
        (delete_question store qid).1 = .ok { success := true, deleted := qid }
        ∧ (delete_question store qid).2.categories = store.categories
        ∧ (∀ x, x ∈ (delete_question store qid).2.questions ↔
              x ∈ store.questions ∧ x.id ≠ qid)) := by
  constructor
  · intro hall
    have hfil : store.questions.filter (fun x => x.id == qid) = [] :=
      List.filter_eq_nil_iff.mpr fun a ha hpa => hall a ha (by simpa using hpa)
    simp [delete_question, hfil, one_or_none]
  · intro q hq hqid
    subst hqid
    have hfil : store.questions.filter (fun x => x.id == q.id) = [q] :=
      filter_key_eq_single hnd hq
    have hl : store.questions.Nodup := hnd.of_map
    have herase : ∀ x, x ∈ store.questions.erase q ↔
        x ∈ store.questions ∧ x.id ≠ q.id := by
      intro x
      rw [hl.mem_erase_iff]
      constructor
      · rintro ⟨hxq, hx⟩
        exact ⟨hx, fun hid => hxq (List.inj_on_of_nodup_map hnd hx hq hid)⟩
      · rintro ⟨hx, hid⟩
        exact ⟨fun hxe => hid (hxe ▸ rfl), hx⟩
    simp only [delete_question, hfil, one_or_none]
    exact ⟨trivial, trivial, herase⟩

/-- Witness for C3: deleting the absent id 99 from the one-question store
returns 404 and leaves the store untouched. -/
theorem C3_delete_question_witness :
    delete_question sampleStore1 99 = (.error (.http 404), sampleStore1) :=
  (C3_delete_question sampleStore1 99 (by decide)).1 (by decide)

/-- The creation branch rejects (422) any body with a missing field. -/
theorem createQuestion_missing (store : Store) (body : PostBody)
    (h : body.question = none ∨ body.answer = none ∨ body.category = none ∨
      body.difficulty = none) :
    createQuestion store body = (.error (.http 422), store) := by
  rcases body with ⟨bq, ba, bd, bc, bs⟩
  cases bq <;> cases ba <;> cases bc <;> cases bd <;> simp_all [createQuestion]

/-- The creation branch of a complete body appends the new record. -/
theorem createQuestion_complete (store : Store) (body : PostBody)
    (q a : String) (c d : Int) (hq : body.question = some q)
    (ha : body.answer = some a) (hc : body.category = some c)
    (hd : body.difficulty = some d) :
    createQuestion store body =
      (.ok (.created true),
       { store with questions := store.questions ++
           [{ id := nextId store.questions, question := q, answer := a,
              category := c, difficulty := d }] }) := by
  rcases body with ⟨bq, ba, bd', bc, bs⟩
  subst hq; subst ha; subst hc; subst hd
  rfl

/-- C4: `POST /questions` without a `searchTerm` is a creation: any null
field among question/answer/category/difficulty yields 422 with the store
unchanged; with all four present the new record (with a fresh identity id)
is appended to the store — hence retrievable — and the call succeeds. -/
theorem C4_create_question (store : Store) (body : PostBody)
    (hst : body.searchTerm = none) :
    ((body.question = none ∨ body.answer = none ∨ body.category = none ∨
        body.difficulty = none) →
      create_question_or_search store body = (.error (.http 422), store))
  ∧ (∀ q a c d, body.question = some q → body.answer = some a →
      body.category = some c → body.difficulty = some d →
      create_question_or_search store body =
        (.ok (.created true),
         { store with questions := store.questions ++
             [{ id := nextId store.questions, question := q, answer := a,
                category := c, difficulty := d }] })
      ∧ ({ id := nextId store.questions, question := q, answer := a,
           category := c, difficulty := d } : Question)
          ∈ (create_question_or_search store body).2.questions) := by
  have hcs : create_question_or_search store body = createQuestion store body := by
    rcases body with ⟨bq, ba, bd, bc, bs⟩
    cases hst
    rfl
  constructor
  · intro h
    rw [hcs]
    exact createQuestion_missing store body h
  · intro q a c d hq ha hc hd
    have hcc := createQuestion_complete store body q a c d hq ha hc hd
    rw [hcs, hcc]
    exact ⟨rfl, by simp⟩

/-- Witness for C4: creating from the complete body appends the new
question to the one-question store. -/
theorem C4_create_question_witness :
    create_question_or_search sampleStore1 bodyFull =
      (.ok (.created true),
       { sampleStore1 with questions := sampleStore1.questions ++
           [{ id := nextId sampleStore1.questions, question := "What is blue",
              answer := "blue", category := 2, difficulty := 3 }] })
    ∧ ({ id := nextId sampleStore1.questions, question := "What is blue",
         answer := "blue", category := 2, difficulty := 3 } : Question)
        ∈ (create_question_or_search sampleStore1 bodyFull).2.questions :=
  (C4_create_question sampleStore1 bodyFull rfl).2 "What is blue" "blue" 2 3
    rfl rfl rfl rfl

/-- C7 counterexample: the claim says a body containing a `searchTerm`
field is always treated as a search, but a present-yet-empty `searchTerm`
falls through to the creation branch: with no other fields it yields 422,
and no search response is produced. -/
theorem C7_counterexample :
    bodyEmptySearch.searchTerm = some ""
    ∧ create_question_or_search sampleStore1 bodyEmptySearch
        = (.error (.http 422), sampleStore1)
    ∧ (∀ r : SearchResp,
        (create_question_or_search sampleStore1 bodyEmptySearch).1
          ≠ .ok (.search r)) := by
  refine ⟨rfl, rfl, ?_⟩
  intro r h
  rw [show (create_question_or_search sampleStore1 bodyEmptySearch).1
        = .error (.http 422) from rfl] at h
  exact Except.noConfusion h

/-- C7 amended: `POST /questions` performs a search iff the `searchTerm`
field is present with a non-empty (truthy) value; an absent or
empty-string `searchTerm` takes the creation branch. -/
theorem C7_search_iff_truthy (store : Store) (body : PostBody) :
    (∀ s, body.searchTerm = some s → s ≠ "" →
        ∃ r : SearchResp,
          create_question_or_search store body = (.ok (.search r), store))
  ∧ ((body.searchTerm = none ∨ body.searchTerm = some "") →
        create_question_or_search store body = createQuestion store body) := by
  constructor
  · intro s hs hne
    simp only [create_question_or_search, hs]
    rw [if_pos hne]
    exact ⟨_, rfl⟩
  · rintro (hs | hs)
    · simp only [create_question_or_search, hs]
    · simp only [create_question_or_search, hs]
      rw [if_neg (by simp)]

/-- Witness for C7 (amended): searching for `"a"` on the one-question
store takes the search branch and leaves the store unchanged. -/
theorem C7_search_iff_truthy_witness :
    ∃ r : SearchResp,
      create_question_or_search sampleStore1 bodySearchA
        = (.ok (.search r), sampleStore1) :=
  (C7_search_iff_truthy sampleStore1 bodySearchA).1 "a" rfl (by decide)

/-- The search branch of `POST /questions` in closed form. -/
theorem search_branch_eq (store : Store) (body : PostBody) (s : String)
    (hs : body.searchTerm = some s) (hne : s ≠ "") :
    create_question_or_search store body =
      (.ok (.search { success := true
                      questions := (sortById store.questions).filter fun q =>
                        ilike ("%" ++ pyLower s ++ "%") q.question
                      totalQuestions := store.questions.length
                      currentCategory := none }), store) := by
  simp only [create_question_or_search, hs]
  rw [if_pos hne]

/-- C5 counterexample: searching for the bare LIKE wildcard `"%"` returns
the store's question even though its text does not contain `"%"` as a
substring, so the returned set is not "exactly those whose question text
contains the searchTerm". -/
theorem C5_counterexample :
    (create_question_or_search sampleStore1 bodyPct).1
      = .ok (.search { success := true
                       questions := sampleStore1.questions
                       totalQuestions := 1
                       currentCategory := none })
    ∧ ¬ ciSubstring "%" "What is red" := ⟨rfl, by decide⟩

/-- C5 (amended): for every search whose term is non-empty and contains no
SQL `LIKE` wildcard (`%` or `_`), the returned questions are exactly those
whose text contains the term as a case-insensitive substring, ordered by
id. -/
theorem C5_search_ci_substring (store : Store) (body : PostBody) (s : String)
    (hst : body.searchTerm = some s) (hne : s ≠ "")
    (hw : ∀ c ∈ s.data, c ≠ '%' ∧ c ≠ '_') :
    ∃ r : SearchResp,
      create_question_or_search store body = (.ok (.search r), store)
      ∧ List.Perm r.questions
          (store.questions.filter fun q => decide (ciSubstring s q.question))
      ∧ (∀ q, q ∈ r.questions ↔ q ∈ store.questions ∧ ciSubstring s q.question)
      ∧ r.questions.Pairwise fun a b => a.id ≤ b.id := by
  have hpred : ∀ q : Question,
      ilike ("%" ++ pyLower s ++ "%") q.question
        = decide (ciSubstring s q.question) := by
    intro q
    rw [Bool.eq_iff_iff, decide_eq_true_eq]
    exact ilike_search_iff s q.question hw
  refine ⟨_, search_branch_eq store body s hst hne, ?_, ?_, ?_⟩
  · rw [List.filter_congr fun a _ => hpred a]
    exact (sortById_perm store.questions).filter _
  · intro q
    rw [List.mem_filter, mem_sortById, hpred, decide_eq_true_eq]
  · exact (sortById_sorted store.questions).filter _

/-- Witness for C5 (amended): searching `"alpha"` in the two-particle
store. -/
theorem C5_search_ci_substring_witness :
    ∃ r : SearchResp,
      create_question_or_search sampleStore2 bodyAlpha
        = (.ok (.search r), sampleStore2)
      ∧ List.Perm r.questions
          (sampleStore2.questions.filter fun q =>
            decide (ciSubstring "alpha" q.question))
      ∧ (∀ q, q ∈ r.questions ↔ q ∈ sampleStore2.questions ∧
            ciSubstring "alpha" q.question)
      ∧ r.questions.Pairwise fun a b => a.id ≤ b.id :=
  C5_search_ci_substring sampleStore2 bodyAlpha "alpha" rfl (by decide)
    (by decide)

/-- C6 counterexample: searching `"alpha"` in the two-question store
returns one match but `totalQuestions = 2`, so the `totalQuestions` field
is not the number of matches returned. -/
theorem C6_counterexample :
    (create_question_or_search sampleStore2 bodyAlpha).1
      = .ok (.search { success := true
                       questions := [qAlpha]
                       totalQuestions := 2
                       currentCategory := none })
    ∧ (2 : Nat) ≠ [qAlpha].length := ⟨rfl, by decide⟩

/-- C6 (amended): every search response carries all matching questions, a
`totalQuestions` equal to the size of the whole question table (not the
match count), and a null `currentCategory`. -/
theorem C6_search_totals (store : Store) (body : PostBody) (s : String)
    (hst : body.searchTerm = some s) (hne : s ≠ "") :
    ∃ r : SearchResp,
      create_question_or_search store body = (.ok (.search r), store)
      ∧ (∀ q, q ∈ r.questions ↔ q ∈ store.questions ∧
            ilike ("%" ++ pyLower s ++ "%") q.question = true)
      ∧ r.totalQuestions = store.questions.length
      ∧ r.currentCategory = none := by
  refine ⟨_, search_branch_eq store body s hst hne, ?_, rfl, rfl⟩
  intro q
  rw [List.mem_filter, mem_sortById]

/-- Witness for C6 (amended): the `"alpha"` search on the two-question
store. -/
theorem C6_search_totals_witness :
    ∃ r : SearchResp,
      create_question_or_search sampleStore2 bodyAlpha
        = (.ok (.search r), sampleStore2)
      ∧ (∀ q, q ∈ r.questions ↔ q ∈ sampleStore2.questions ∧
            ilike ("%" ++ pyLower "alpha" ++ "%") q.question = true)
      ∧ r.totalQuestions = sampleStore2.questions.length
      ∧ r.currentCategory = none :=
  C6_search_totals sampleStore2 bodyAlpha "alpha" rfl (by decide)

/-- C8: `GET /categories/{id}/questions` returns 404 exactly when the
category id is unknown or the category has no questions; otherwise it
returns exactly the questions of that category ordered by id, the total
question count across all categories, and the category's label. -/
theorem C8_questions_by_category (store : Store) (cid : Int)
    (hnd : (store.categories.map Category.id).Nodup) :
    (retrieve_questions_from_category store cid = .error (.http 404) ↔
        ((∀ c ∈ store.categories, c.id ≠ cid) ∨
         (∀ q ∈ store.questions, q.category ≠ cid)))
  ∧ (∀ r, retrieve_questions_from_category store cid = .ok r →
        (∀ q, q ∈ r.questions ↔ q ∈ store.questions ∧ q.category = cid)
        ∧ r.questions.Pairwise (fun a b => a.id ≤ b.id)
        ∧ r.totalQuestions = store.questions.length
        ∧ (∃ c ∈ store.categories, c.id = cid ∧ r.currentCategory = c.type)
        ∧ r.success = true) := by
  by_cases hex : ∃ c ∈ store.categories, c.id = cid
  · rcases hex with ⟨c, hc, hcid⟩
    subst hcid
    have hfil : store.categories.filter (fun x => x.id == c.id) = [c] :=
      filter_key_eq_single hnd hc
    have hbr : retrieve_questions_from_category store c.id =
        (if ((sortById store.questions).filter fun q => q.category == c.id).length = 0
         then .error (.http 404)
         else .ok { success := true
                    questions := (sortById store.questions).filter fun q =>
                      q.category == c.id
                    totalQuestions := store.questions.length
                    currentCategory := c.type }) := by
      simp only [retrieve_questions_from_category, hfil, one_or_none]
    by_cases hz : ((sortById store.questions).filter fun q => q.category == c.id).length = 0
    · rw [hbr, if_pos hz]
      constructor
      · constructor
        · intro _
          refine Or.inr fun q hq hcat => ?_
          have : q ∈ (sortById store.questions).filter fun q => q.category == c.id :=
            List.mem_filter.mpr ⟨mem_sortById.mpr hq, by simp [hcat]⟩
          rw [List.length_eq_zero.mp hz] at this
          cases this
        · intro _; rfl
      · intro r hr
        exact absurd hr (by simp)
    · rw [hbr, if_neg hz]
      constructor
      · constructor
        · intro h
          exact absurd h (by simp)
        · rintro (h | h)
          · exact absurd rfl (h c hc)
          · rcases List.length_pos_iff_exists_mem.mp (Nat.pos_of_ne_zero hz)
              with ⟨q, hq⟩
            rcases List.mem_filter.mp hq with ⟨hq', hcat⟩
            exact absurd (by simpa using hcat) (h q (mem_sortById.mp hq'))
      · intro r hr
        injection hr with h2
        subst h2
        refine ⟨?_, ?_, rfl, ⟨c, hc, rfl, rfl⟩, rfl⟩
        · intro q
          rw [List.mem_filter, mem_sortById, beq_iff_eq]
        · exact (sortById_sorted store.questions).filter _
  · have hfil : store.categories.filter (fun x => x.id == cid) = [] := by
      apply List.filter_eq_nil_iff.mpr
      intro c hc hp
      exact hex ⟨c, hc, by simpa using hp⟩
    have hbr : retrieve_questions_from_category store cid = .error (.http 404) := by
      simp [retrieve_questions_from_category, hfil, one_or_none]
    rw [hbr]
    constructor
    · constructor
      · intro _
        exact Or.inl fun c hc hcid => hex ⟨c, hc, hcid⟩
      · intro _; rfl
    · intro r hr
      exact absurd hr (by simp)

/-- Witness for C8: category 1 of the two-particle store holds exactly its
two questions, with the global total and the label "Science". -/
theorem C8_questions_by_category_witness :
    (∀ q, q ∈ ([qAlpha, qBeta] : List Question) ↔
        q ∈ sampleStore2.questions ∧ q.category = 1)
    ∧ ([qAlpha, qBeta] : List Question).Pairwise (fun a b => a.id ≤ b.id)
    ∧ (2 : Nat) = sampleStore2.questions.length
    ∧ (∃ c ∈ sampleStore2.categories, c.id = 1 ∧ "Science" = c.type)
    ∧ true = true :=
  (C8_questions_by_category sampleStore2 1 (by decide)).2
    { success := true, questions := [qAlpha, qBeta], totalQuestions := 2,
      currentCategory := "Science" } rfl

theorem mem_quizSelection {store : Store} {prev : List Int} {cid : Int}
    {q : Question} :
    q ∈ quizSelection store prev cid ↔
      q ∈ store.questions ∧ q.id ∉ prev ∧ (cid = 0 ∨ q.category = cid) := by
  unfold quizSelection
  by_cases h0 : cid = 0
  · rw [if_pos h0, List.mem_filter]
    simp [h0]
  · rw [if_neg h0, List.mem_filter]
    constructor
    · rintro ⟨hq, hp⟩
      rcases Bool.and_eq_true .. |>.mp hp with ⟨hcat, hnp⟩
      exact ⟨hq, by simpa using hnp, Or.inr (by simpa using hcat)⟩
    · rintro ⟨hq, hp, hcat | hcat⟩
      · exact absurd hcat h0
      · exact ⟨hq, by simp [hcat, hp]⟩

theorem get_mod_self {α : Type} (l : List α) (i : Fin l.length)
    (h : i.val % l.length < l.length) :
    l.get ⟨i.val % l.length, h⟩ = l.get i := by
  congr 1
  exact Fin.ext (Nat.mod_eq_of_lt i.isLt)

/-- C2: `POST /quizzes` draws from the questions whose id is not among
`previous_questions`, restricted to the category unless its id is 0; it
404s exactly when no candidate remains, and otherwise the random draw —
modelled by the oracle index — always lands inside the candidates, so the
returned question's id is never a previous one, and every candidate is
returned for some draw. -/
theorem C2_quiz_candidates (store : Store) (prev : List Int) (cid : Int) :
    (∀ choice,
        (get_questions_for_quiz store prev cid choice = .error (.http 404) ↔
          ∀ q ∈ store.questions, (cid = 0 ∨ q.category = cid) → q.id ∈ prev))
  ∧ (∀ choice r, get_questions_for_quiz store prev cid choice = .ok r →
        r.question ∈ store.questions ∧ r.question.id ∉ prev
        ∧ (cid ≠ 0 → r.question.category = cid) ∧ r.success = true)
  ∧ (∀ q ∈ store.questions, q.id ∉ prev → (cid = 0 ∨ q.category = cid) →
        ∃ choice r, get_questions_for_quiz store prev cid choice = .ok r
          ∧ r.question = q) := by
  have hempty : quizSelection store prev cid = [] ↔
      ∀ q ∈ store.questions, (cid = 0 ∨ q.category = cid) → q.id ∈ prev := by
    rw [List.eq_nil_iff_forall_not_mem]
    constructor
    · intro h q hq hcat
      by_contra hp
      exact h q (mem_quizSelection.mpr ⟨hq, hp, hcat⟩)
    · intro h q hq
      rcases mem_quizSelection.mp hq with ⟨hq', hp, hcat⟩
      exact hp (h q hq' hcat)
  refine ⟨?_, ?_, ?_⟩
  · intro choice
    by_cases hz : (quizSelection store prev cid).length = 0
    · simp only [get_questions_for_quiz, dif_pos hz]
      exact ⟨fun _ => hempty.mp (List.length_eq_zero.mp hz), fun _ => trivial⟩
    · simp only [get_questions_for_quiz, dif_neg hz]
      constructor
      · intro h; exact absurd h (by simp)
      · intro hall
        exact absurd (by rw [hempty.mpr hall]; rfl) hz
  · intro choice r hr
    by_cases hz : (quizSelection store prev cid).length = 0
    · rw [show get_questions_for_quiz store prev cid choice = .error (.http 404)
          from by simp only [get_questions_for_quiz, dif_pos hz]] at hr
      exact absurd hr (by simp)
    · simp only [get_questions_for_quiz, dif_neg hz] at hr
      injection hr with h2
      subst h2
      have hmem : (quizSelection store prev cid).get
          ⟨choice % (quizSelection store prev cid).length,
           Nat.mod_lt _ (Nat.pos_of_ne_zero hz)⟩ ∈ quizSelection store prev cid :=
        List.get_mem _ _ _
      rcases mem_quizSelection.mp hmem with ⟨hq, hp, hcat⟩
      refine ⟨hq, hp, ?_, rfl⟩
      intro hc0
      rcases hcat with hcat | hcat
      · exact absurd hcat hc0
      · exact hcat
  · intro q hq hp hcat
    have hqsel : q ∈ quizSelection store prev cid :=
      mem_quizSelection.mpr ⟨hq, hp, hcat⟩
    rcases List.mem_iff_get.mp hqsel with ⟨i, hi⟩
    have hz : ¬ (quizSelection store prev cid).length = 0 := by
      intro h0
      rw [List.length_eq_zero.mp h0] at hqsel
      cases hqsel
    refine ⟨i.val, { success := true, question := q }, ?_, rfl⟩
    simp only [get_questions_for_quiz, dif_neg hz]
    rw [get_mod_self _ i _, hi]

/-- Witness for C2: on the two-particle store, with question 1 already
seen and the "any" category, some draw returns question 2. -/
theorem C2_quiz_candidates_witness :
    ∃ choice r, get_questions_for_quiz sampleStore2 [1] 0 choice = .ok r
      ∧ r.question = qBeta :=
  (C2_quiz_candidates sampleStore2 [1] 0).2.2 qBeta (by decide) (by decide)
    (Or.inl rfl)

/-- Unfolding `handleExc` on an error result: either an HTTP exception was
re-raised as-is, or some other exception became a 422. -/
theorem handleExc_error {γ : Type} (e : Except PyExc γ) (c : Nat)
    (h : handleExc e = .error c) :
    e = .error (.http c) ∨ (e = .error .other ∧ c = 422) := by
  cases e with
  | ok a => simp [handleExc] at h
  | error pe =>
      cases pe with
      | http k =>
          simp only [handleExc, Except.error.injEq] at h
          exact Or.inl (by rw [h])
      | other =>
          simp only [handleExc, Except.error.injEq] at h
          exact Or.inr ⟨rfl, h.symm⟩

theorem retrieve_categories_codes (store : Store) (c : Nat)
    (h : retrieve_categories store = .error (.http c)) : c = 404 := by
  by_cases hz : (sortCatById store.categories).length = 0 <;>
    simp [retrieve_categories, hz] at h
  omega

theorem retrieve_questions_codes (store : Store) (page : Int) (c : Nat)
    (h : retrieve_questions store page = .error (.http c)) : c = 404 := by
  by_cases hz : (paginate_questions page (sortById store.questions)).length = 0 <;>
    simp [retrieve_questions, hz] at h
  omega

theorem delete_question_codes (store : Store) (qid : Int) (c : Nat)
    (h : (delete_question store qid).1 = .error (.http c)) : c = 404 := by
  unfold delete_question at h
  rcases hf : store.questions.filter (fun q => q.id == qid) with _ | ⟨a, _ | ⟨b, l⟩⟩ <;>
    rw [hf] at h <;> simp [one_or_none] at h
  omega

theorem createQuestion_codes (store : Store) (body : PostBody) (c : Nat)
    (h : (createQuestion store body).1 = .error (.http c)) : c = 422 := by
  rcases body with ⟨bq, ba, bd, bc, bs⟩
  cases bq <;> cases ba <;> cases bc <;> cases bd <;>
    simp [createQuestion] at h <;> omega

theorem create_question_or_search_codes (store : Store) (body : PostBody)
    (c : Nat) (h : (create_question_or_search store body).1 = .error (.http c)) :
    c = 422 := by
  rcases hs : body.searchTerm with _ | s
  · rw [show create_question_or_search store body = createQuestion store body
        from by simp only [create_question_or_search, hs]] at h
    exact createQuestion_codes store body c h
  · by_cases hne : s ≠ ""
    · rw [search_branch_eq store body s hs hne] at h
      simp at h
    · rw [show create_question_or_search store body = createQuestion store body
          from by simp only [create_question_or_search, hs];
                  rw [if_neg hne]] at h
      exact createQuestion_codes store body c h

theorem retrieve_questions_from_category_codes (store : Store) (cid : Int)
    (c : Nat)
    (h : retrieve_questions_from_category store cid = .error (.http c)) :
    c = 404 := by
  unfold retrieve_questions_from_category at h
  rcases hf : store.categories.filter (fun x => x.id == cid)
      with _ | ⟨a, _ | ⟨b, l⟩⟩ <;> rw [hf] at h
  · simp [one_or_none] at h
    omega
  · simp only [one_or_none] at h
    split at h
    · injection h with h1
      injection h1 with h2
      exact h2.symm
    · exact absurd h (by simp)
  · simp [one_or_none] at h

theorem get_questions_for_quiz_codes (store : Store) (prev : List Int)
    (cid : Int) (choice : Nat) (c : Nat)
    (h : get_questions_for_quiz store prev cid choice = .error (.http c)) :
    c = 404 := by
  by_cases hz : (quizSelection store prev cid).length = 0 <;>
    simp only [get_questions_for_quiz, dif_pos, dif_neg, hz] at h <;>
    simp at h
  omega

/-- C9: every error response has body `{success: false, error: E, message}`
with `E ∈ {404, 422}` equal to the HTTP status; the wrapper re-raises an
already-raised HTTP exception unchanged and turns any other exception into
422; and every handler's error status is 404 or 422. -/
theorem C9_error_responses :
    (∀ c, (c = 404 ∨ c = 422) →
        (errorResponse c).1.success = false
        ∧ (errorResponse c).1.error = c
        ∧ (errorResponse c).2 = c
        ∧ (errorResponse c).1.error = (errorResponse c).2)
  ∧ (∀ (c : Nat), @handleExc CategoriesResp (.error (.http c)) = .error c)
  ∧ (@handleExc CategoriesResp (.error .other) = .error 422)
  ∧ (∀ store c, handleExc (retrieve_categories store) = .error c →
        c = 404 ∨ c = 422)
  ∧ (∀ store page c, handleExc (retrieve_questions store page) = .error c →
        c = 404 ∨ c = 422)
  ∧ (∀ store qid c, handleExc (delete_question store qid).1 = .error c →
        c = 404 ∨ c = 422)
  ∧ (∀ store body c,
        handleExc (create_question_or_search store body).1 = .error c →
        c = 404 ∨ c = 422)
  ∧ (∀ store cid c,
        handleExc (retrieve_questions_from_category store cid) = .error c →
        c = 404 ∨ c = 422)
  ∧ (∀ store prev cid choice c,
        handleExc (get_questions_for_quiz store prev cid choice) = .error c →
        c = 404 ∨ c = 422) := by
  refine ⟨?_, fun c => rfl, rfl, ?_, ?_, ?_, ?_, ?_, ?_⟩
  · rintro c (rfl | rfl) <;> exact ⟨rfl, rfl, rfl, rfl⟩
  · intro store c h
    rcases handleExc_error _ c h with he | ⟨_, rfl⟩
    · exact Or.inl (retrieve_categories_codes store c he)
    · exact Or.inr rfl
  · intro store page c h
    rcases handleExc_error _ c h with he | ⟨_, rfl⟩
    · exact Or.inl (retrieve_questions_codes store page c he)
    · exact Or.inr rfl
  · intro store qid c h
    rcases handleExc_error _ c h with he | ⟨_, rfl⟩
    · exact Or.inl (delete_question_codes store qid c he)
    · exact Or.inr rfl
  · intro store body c h
    rcases handleExc_error _ c h with he | ⟨_, rfl⟩
    · exact Or.inr (create_question_or_search_codes store body c he)
    · exact Or.inr rfl
  · intro store cid c h
    rcases handleExc_error _ c h with he | ⟨_, rfl⟩
    · exact Or.inl (retrieve_questions_from_category_codes store cid c he)
    · exact Or.inr rfl
  · intro store prev cid choice c h
    rcases handleExc_error _ c h with he | ⟨_, rfl⟩
    · exact Or.inl (get_questions_for_quiz_codes store prev cid choice c he)
    · exact Or.inr rfl

/-- Witness for C9: the registered 404 handler answers status 404 with a
`success: false` body whose `error` field is 404. -/
theorem C9_error_responses_witness :
    (errorResponse 404).1.success = false
    ∧ (errorResponse 404).1.error = 404
    ∧ (errorResponse 404).2 = 404
    ∧ (errorResponse 404).1.error = (errorResponse 404).2 :=
  C9_error_responses.1 404 (Or.inl rfl)

end Trivia
